import Mathlib

/-!
Verification development for the `powercouple` repository.

The program code (backend/optimizer/{byog_engine.py, model.py, solver.py,
lcoe.py}) is shallowly embedded over `ℚ`: Python floats become exact
rationals, `round(x, d)` becomes decimal round-half-to-even (`roundQ`),
fallible/nullable values become `Option`.  Python's `math.sqrt` has no exact
rational counterpart; where the code computes `sqrt_rte` the embedding takes
the square root as an explicit parameter.
-/

namespace PowerCouple

/-- `EPSILON = 1e-9` from byog_engine.py. -/
def epsilon : ℚ := 1 / 10 ^ 9

/-! ## Decimal rounding (Python `round`)

Python's `round(x, d)` rounds half to even.  `rhe` is the integer
round-half-to-even and `roundQ d` rounds to `d` decimal places. -/

/-- Round a rational to the nearest integer, ties to even. -/
def rhe (q : ℚ) : ℤ :=
  if q - ⌊q⌋ < 1 / 2 then ⌊q⌋
  else if 1 / 2 < q - ⌊q⌋ then ⌊q⌋ + 1
  else if Even ⌊q⌋ then ⌊q⌋ else ⌊q⌋ + 1

/-- Python `round(x, d)`: round to `d` decimal places, ties to even. -/
def roundQ (d : ℕ) (x : ℚ) : ℚ := (rhe (x * 10 ^ d) : ℚ) / 10 ^ d

/-! ## byog_engine.py primitives -/

/-- `CalculationClass._normalize_pct` (the `None` branch is unreachable at
the call sites embedded here: every caller first applies `float(...)`). -/
def normalizePct (v : ℚ) : ℚ := if 1 ≤ v then v / 100 else v

/-- `CalculationClass._crf`. -/
def engineCrf (rate : ℚ) (years : ℕ) : ℚ :=
  if years = 0 then 0
  else if |rate| < epsilon then 1 / (years : ℚ)
  else (rate * (1 + rate) ^ years) / ((1 + rate) ^ years - 1)

/-- `np.sign` restricted to rationals. -/
def signQ (q : ℚ) : ℤ := if q < 0 then -1 else if q = 0 then 0 else 1

/-- Inner `npv` of `CalculationClass._irr_bisection`:
`sum(cf / ((1 + rate) ** t) for t, cf in enumerate(cashflows))`. -/
def npvAux (r : ℚ) : ℕ → List ℚ → ℚ
  | _, [] => 0
  | t, cf :: rest => cf / (1 + r) ^ t + npvAux r (t + 1) rest

def npvAt (cfs : List ℚ) (r : ℚ) : ℚ := npvAux r 0 cfs

/-- Exit tag of the bisection loop: `tol` is the in-loop
`return mid` on `abs(mid_npv) <= 1e-7`; `exhausted` is the final
`return (low + high) / 2` after the iteration budget. -/
inductive BisectExit where
  | tol (r : ℚ)
  | exhausted (r : ℚ)
deriving DecidableEq

def BisectExit.val : BisectExit → ℚ
  | .tol r => r
  | .exhausted r => r

/-- The `for _ in range(iterations)` loop of `_irr_bisection`. -/
def bisectLoop (cfs : List ℚ) : ℕ → ℚ → ℚ → ℚ → BisectExit
  | 0, low, high, _ => .exhausted ((low + high) / 2)
  | n + 1, low, high, lowNpv =>
    let mid := (low + high) / 2
    let midNpv := npvAt cfs mid
    if |midNpv| ≤ 1 / 10 ^ 7 then .tol mid
    else if signQ midNpv = signQ lowNpv then bisectLoop cfs n mid high midNpv
    else bisectLoop cfs n low mid lowNpv

/-- `CalculationClass._irr_bisection`. -/
def irrBisection (cfs : List ℚ) (low high : ℚ) (iterations : ℕ) : Option ℚ :=
  let lowNpv := npvAt cfs low
  let highNpv := npvAt cfs high
  if signQ lowNpv = signQ highNpv then none
  else some (bisectLoop cfs iterations low high lowNpv).val

/-- `_irr_bisection` at its default arguments (`low=-0.99, high=3.0,
iterations=200`), as called by `CalculationClass.run`. -/
def irrBisectionDefault (cfs : List ℚ) : Option ℚ :=
  irrBisection cfs (-99 / 100) 3 200

/-! ## BYOG configuration tree (`DEFAULT_BYOC_INPUTS` and its sections)

One structure per section of the nested input tree.  Keys absent from the
default tree but probed with `.get`/`.setdefault` (`max_gas_backup_pct`,
`max_deployable_mw`, `seed_nameplate_mw`) are `Option`-valued.  The `wind`
section is never read by `CalculationClass.run` (`wind_capex` is the
literal `0.0`), so it is not embedded. -/

structure Tier where
  name : String
  mw : ℚ
  maxEventHours : ℚ
  maxEvents : ℚ
  revenueLossPerMwh : ℚ
deriving DecidableEq

structure SiteLand where
  landParcelSizeAcres : ℚ
  landCostPerAcreUsd : ℚ
deriving DecidableEq

structure Preconstruction where
  permittingRegulatoryUsd : ℚ
  environmentalStudiesUsd : ℚ
  geotechEngineeringUsd : ℚ
  interconnectionStudiesUsd : ℚ
  legalFeesUsd : ℚ
  titleInsuranceUsd : ℚ
  developmentMgmtUsd : ℚ
  sitePreparationUsd : ℚ
  utilityCoordinationUsd : ℚ
  financingFeesUsd : ℚ
  contingencyPct : ℚ
deriving DecidableEq

structure PowerInfrastructure where
  substationCapacityMva : ℚ
  substationCostPerMvaUsd : ℚ
  transmissionDistanceMiles : ℚ
  transmissionCostPerMileUsd : ℚ
  networkUpgradesUsd : ℚ
  distributionInfraUsd : ℚ
  contingencyPct : ℚ
deriving DecidableEq

structure DataCenter where
  totalItCapacityMw : ℚ
  constructionCostPerKwUsd : ℚ
  ffeUsd : ℚ
  ownersCostsUsd : ℚ
  contingencyPct : ℚ
deriving DecidableEq

structure LoadProfileCfg where
  peakItLoadMw : ℚ
  minOperatingLoadMw : ℚ
  loadFactor : ℚ
deriving DecidableEq

structure Firmness where
  baseFirmGenerationRequirementPct : ℚ
  planningReserveMarginPct : ℚ
deriving DecidableEq

structure SolarCosts where
  capacityFactorPct : ℚ
  capitalCostPerKwUsd : ℚ
  fixedOmPerKwYearUsd : ℚ
  usefulLifeYears : ℕ
  degradationPct : ℚ
  landRequirementAcresPerMw : ℚ
  elcc : ℚ
  maxDeployableMw : Option ℚ
deriving DecidableEq

structure BatteryCosts where
  durationHours : ℚ
  powerCostPerKwUsd : ℚ
  energyCostPerKwhUsd : ℚ
  fixedOmPerKwYearUsd : ℚ
  variableOmPerMwhUsd : ℚ
  roundTripEfficiencyPct : ℚ
  usefulLifeYears : ℕ
  elcc : ℚ
deriving DecidableEq

structure NaturalGasCosts where
  capitalCostPerKwUsd : ℚ
  fixedOmPerKwYearUsd : ℚ
  variableOmPerMwhUsd : ℚ
  heatRateMmbtuPerMwh : ℚ
  fuelCostUsdPerMmbtu : ℚ
  fuelPriceEscalationPct : ℚ
  usefulLifeYears : ℕ
  elcc : ℚ
  seedNameplateMw : Option ℚ
deriving DecidableEq

structure EsaGridCosts where
  available : Bool
  maxCapacityMw : ℚ
  energyRateUsdPerMwh : ℚ
  energyEscalationPct : ℚ
  demandChargeUsdPerMwMonth : ℚ
  transmissionImportLimitMw : ℚ
  elcc : ℚ
deriving DecidableEq

structure ResourceCosts where
  solar : SolarCosts
  battery : BatteryCosts
  naturalGas : NaturalGasCosts
  esaGrid : EsaGridCosts
deriving DecidableEq

structure RevenueCfg where
  leasableItCapacityMw : ℚ
  revenueModelType : String
  baseLeaseRateWholesaleUsdPerMwMonth : ℚ
  baseLeaseRateColoUsdPerKwMonth : ℚ
  contractEscalationRatePct : ℚ
  absorptionPeriodYears : ℚ
  stabilizedOccupancyPct : ℚ
  dynamicLeasePricingEnabled : Bool
  targetIrrBufferPct : ℚ
  maxLeaseRateUsdPerMwMonth : ℚ
deriving DecidableEq

structure OpexCfg where
  baseFacilityOpsUsdPerMwYear : ℚ
  propertyTaxRatePct : ℚ
  insuranceUsdPerMwYear : ℚ
  assetMgmtFeePct : ℚ
  otherGaUsdPerYear : ℚ
  opexEscalationRatePct : ℚ
deriving DecidableEq

structure AnalysisCfg where
  requiredEquityReturnPct : ℚ
  discountRatePct : ℚ
  analysisPeriodYears : ℕ
  generalInflationRatePct : ℚ
  maxGasBackupPct : Option ℚ
deriving DecidableEq

/-- The whole merged BYOC input tree (keys the engine reads). -/
structure Model where
  siteLand : SiteLand
  preconstruction : Preconstruction
  powerInfrastructure : PowerInfrastructure
  dataCenter : DataCenter
  loadProfile : LoadProfileCfg
  curtailmentTiers : List Tier
  firmness : Firmness
  resourceCosts : ResourceCosts
  revenue : RevenueCfg
  opex : OpexCfg
  analysis : AnalysisCfg
deriving DecidableEq

/-- `DEFAULT_BYOC_INPUTS` from byog_engine.py. -/
def defaultByocInputs : Model :=
  { siteLand := { landParcelSizeAcres := 100, landCostPerAcreUsd := 25000 }
    preconstruction :=
      { permittingRegulatoryUsd := 500000
        environmentalStudiesUsd := 300000
        geotechEngineeringUsd := 200000
        interconnectionStudiesUsd := 1000000
        legalFeesUsd := 400000
        titleInsuranceUsd := 150000
        developmentMgmtUsd := 500000
        sitePreparationUsd := 2000000
        utilityCoordinationUsd := 300000
        financingFeesUsd := 250000
        contingencyPct := 75 / 10 }
    powerInfrastructure :=
      { substationCapacityMva := 150
        substationCostPerMvaUsd := 40000
        transmissionDistanceMiles := 2
        transmissionCostPerMileUsd := 2000000
        networkUpgradesUsd := 5000000
        distributionInfraUsd := 3000000
        contingencyPct := 10 }
    dataCenter :=
      { totalItCapacityMw := 100
        constructionCostPerKwUsd := 8000
        ffeUsd := 2000000
        ownersCostsUsd := 5000000
        contingencyPct := 10 }
    loadProfile :=
      { peakItLoadMw := 90, minOperatingLoadMw := 30, loadFactor := 85 / 100 }
    curtailmentTiers :=
      [ { name := "tier4", mw := 20, maxEventHours := 8, maxEvents := 50, revenueLossPerMwh := 50 }
      , { name := "tier3", mw := 20, maxEventHours := 4, maxEvents := 30, revenueLossPerMwh := 120 }
      , { name := "tier2", mw := 15, maxEventHours := 2, maxEvents := 15, revenueLossPerMwh := 250 }
      , { name := "tier1", mw := 35, maxEventHours := 0, maxEvents := 0, revenueLossPerMwh := 0 } ]
    firmness :=
      { baseFirmGenerationRequirementPct := 85, planningReserveMarginPct := 15 }
    resourceCosts :=
      { solar :=
          { capacityFactorPct := 25
            capitalCostPerKwUsd := 1200
            fixedOmPerKwYearUsd := 15
            usefulLifeYears := 30
            degradationPct := 5 / 10
            landRequirementAcresPerMw := 7
            elcc := 30 / 100
            maxDeployableMw := none }
        battery :=
          { durationHours := 4
            powerCostPerKwUsd := 250
            energyCostPerKwhUsd := 200
            fixedOmPerKwYearUsd := 10
            variableOmPerMwhUsd := 3
            roundTripEfficiencyPct := 87
            usefulLifeYears := 15
            elcc := 90 / 100 }
        naturalGas :=
          { capitalCostPerKwUsd := 800
            fixedOmPerKwYearUsd := 12
            variableOmPerMwhUsd := 5
            heatRateMmbtuPerMwh := 95 / 10
            fuelCostUsdPerMmbtu := 4
            fuelPriceEscalationPct := 25 / 10
            usefulLifeYears := 30
            elcc := 92 / 100
            seedNameplateMw := none }
        esaGrid :=
          { available := true
            maxCapacityMw := 50
            energyRateUsdPerMwh := 65
            energyEscalationPct := 2
            demandChargeUsdPerMwMonth := 15000
            transmissionImportLimitMw := 50
            elcc := 1 } }
    revenue :=
      { leasableItCapacityMw := 90
        revenueModelType := "wholesale"
        baseLeaseRateWholesaleUsdPerMwMonth := 120000
        baseLeaseRateColoUsdPerKwMonth := 150
        contractEscalationRatePct := 25 / 10
        absorptionPeriodYears := 2
        stabilizedOccupancyPct := 95
        dynamicLeasePricingEnabled := true
        targetIrrBufferPct := 1
        maxLeaseRateUsdPerMwMonth := 600000 }
    opex :=
      { baseFacilityOpsUsdPerMwYear := 50000
        propertyTaxRatePct := 1
        insuranceUsdPerMwYear := 8000
        assetMgmtFeePct := 2
        otherGaUsdPerYear := 500000
        opexEscalationRatePct := 25 / 10 }
    analysis :=
      { requiredEquityReturnPct := 12
        discountRatePct := 10
        analysisPeriodYears := 25
        generalInflationRatePct := 25 / 10
        maxGasBackupPct := none } }

/-! ## Guardrail validation (`CalculationClass._validate_guardrails`) -/

def tierMwSum (m : Model) : ℚ := (m.curtailmentTiers.map Tier.mw).sum

/-- `_validate_guardrails`: `true` iff no `ValueError` is raised. -/
def validateOk (m : Model) : Bool :=
  let totalIt := m.dataCenter.totalItCapacityMw
  let peak := m.loadProfile.peakItLoadMw
  let minLoad := m.loadProfile.minOperatingLoadMw
  let leasable := m.revenue.leasableItCapacityMw
  decide (peak ≤ totalIt + epsilon) &&
  decide (minLoad ≤ peak + epsilon) &&
  decide (leasable ≤ totalIt + epsilon) &&
  decide (|tierMwSum m - peak| ≤ 1 / 1000) &&
  decide (0 < m.resourceCosts.naturalGas.fuelCostUsdPerMmbtu)

/-! ## Priority resource allocation (section 3.2 of `CalculationClass.run`) -/

def hoursPerYear : ℚ := 8760

def grossFirmReq (m : Model) : ℚ :=
  m.loadProfile.peakItLoadMw *
    normalizePct m.firmness.baseFirmGenerationRequirementPct *
    (1 + normalizePct m.firmness.planningReserveMarginPct)

def annualEnergyDemand (m : Model) : ℚ :=
  m.loadProfile.peakItLoadMw * m.loadProfile.loadFactor * hoursPerYear

def esaCapacity (m : Model) : ℚ :=
  let esa := m.resourceCosts.esaGrid
  if esa.available then
    min (min esa.maxCapacityMw esa.transmissionImportLimitMw) (grossFirmReq m)
  else 0

def esaElcc (m : Model) : ℚ := esaCapacity m * m.resourceCosts.esaGrid.elcc

def remainingFirmAfterEsa (m : Model) : ℚ := max (grossFirmReq m - esaElcc m) 0

def solarCfFrac (m : Model) : ℚ := normalizePct m.resourceCosts.solar.capacityFactorPct

def maxSolarByLand (m : Model) : ℚ :=
  m.siteLand.landParcelSizeAcres / max m.resourceCosts.solar.landRequirementAcresPerMw epsilon

def maxSolarDeployable (m : Model) : ℚ :=
  max (m.resourceCosts.solar.maxDeployableMw.getD (maxSolarByLand m)) 0

def solarEnergyTarget (m : Model) : ℚ :=
  annualEnergyDemand m / max (solarCfFrac m * hoursPerYear) epsilon

def optimalSolarMw (m : Model) : ℚ :=
  min (min (maxSolarByLand m) (maxSolarDeployable m)) (solarEnergyTarget m)

def solarElcc (m : Model) : ℚ := optimalSolarMw m * m.resourceCosts.solar.elcc

def solarAnnualGeneration (m : Model) : ℚ :=
  optimalSolarMw m * solarCfFrac m * hoursPerYear

def remainingFirmAfterSolar (m : Model) : ℚ :=
  max (remainingFirmAfterEsa m - solarElcc m) 0

/-- `max(0.0, min(1.0, self._normalize_pct(float(ana.get("max_gas_backup_pct", 1.0)))))`. -/
def maxGasBackupPctEff (m : Model) : ℚ :=
  max 0 (min 1 (normalizePct (m.analysis.maxGasBackupPct.getD 1)))

/-- `max_gas_elcc_allowed = gross_firm_req * max_gas_backup_pct`. -/
def maxGasElccAllowed (m : Model) : ℚ := grossFirmReq m * maxGasBackupPctEff m

def gasElccAlloc (m : Model) : ℚ :=
  min (remainingFirmAfterSolar m) (maxGasElccAllowed m)

def gasCapacityMw (m : Model) : ℚ :=
  max (gasElccAlloc m / max m.resourceCosts.naturalGas.elcc epsilon) 0

def remainingAfterGas (m : Model) : ℚ :=
  max (remainingFirmAfterSolar m - gasElccAlloc m) 0

def batteryElcc (m : Model) : ℚ := remainingAfterGas m

def batteryPowerMw (m : Model) : ℚ :=
  batteryElcc m / max m.resourceCosts.battery.elcc epsilon

def batteryEnergyMwh (m : Model) : ℚ :=
  batteryPowerMw m * m.resourceCosts.battery.durationHours

def esaAnnualImport (m : Model) : ℚ := esaCapacity m * hoursPerYear * (1 / 2)

def residualAfterSolarEsa (m : Model) : ℚ :=
  max (annualEnergyDemand m - solarAnnualGeneration m - esaAnnualImport m) 0

def gasAnnualGeneration (m : Model) : ℚ :=
  min (gasCapacityMw m * hoursPerYear) (residualAfterSolarEsa m)

def batteryAnnualDischargeMwh (m : Model) : ℚ :=
  max (annualEnergyDemand m - solarAnnualGeneration m - esaAnnualImport m -
    gasAnnualGeneration m) 0

def totalFirmAccredited (m : Model) : ℚ :=
  esaElcc m + solarElcc m + batteryElcc m + gasElccAlloc m

def coverageRatio (m : Model) : ℚ :=
  totalFirmAccredited m / max (grossFirmReq m) epsilon

def estimatedCurtailmentMwh (m : Model) : ℚ :=
  max (annualEnergyDemand m - solarAnnualGeneration m - esaAnnualImport m -
    gasAnnualGeneration m) 0 * (5 / 100)

/-! ## Weighted curtailment cost (`CalculationClass._weighted_curtailment_cost`) -/

/-- The `for tier in ordered` loop: returns `(remaining, total_cost)` after the
loop, honoring the `break` when `remaining <= 0`. -/
def curtailFill : List Tier → ℚ → ℚ → ℚ × ℚ
  | [], remaining, cost => (remaining, cost)
  | t :: ts, remaining, cost =>
    let tierCap := t.mw * t.maxEventHours * t.maxEvents
    let consumed := min remaining tierCap
    let cost' := cost + consumed * t.revenueLossPerMwh
    let remaining' := remaining - consumed
    if remaining' ≤ 0 then (remaining', cost') else curtailFill ts remaining' cost'

/-- Stable insertion of a tier into a list sorted ascending by
`revenue_loss_per_mwh` (a later-arriving equal key goes after). -/
def insertByLoss (x : Tier) : List Tier → List Tier
  | [] => [x]
  | y :: ys =>
    if y.revenueLossPerMwh ≤ x.revenueLossPerMwh then y :: insertByLoss x ys
    else x :: y :: ys

/-- Python's `sorted(..., key=revenue_loss_per_mwh)` is a stable ascending
sort; embedded as stable insertion sort (extensionally equal to any stable
sort on the same key). -/
def sortByLoss : List Tier → List Tier
  | [] => []
  | x :: xs => insertByLoss x (sortByLoss xs)

def weightedCurtailmentCost (totalMwh : ℚ) (tiers : List Tier) : ℚ :=
  if totalMwh ≤ 0 then 0
  else
    let ordered := sortByLoss (tiers.filter (fun t => t.name ≠ "tier1"))
    let rc := curtailFill ordered totalMwh 0
    let cost :=
      if 0 < rc.1 ∧ ordered ≠ [] then
        rc.2 + rc.1 * ((ordered.getLast?).map Tier.revenueLossPerMwh).iget
      else rc.2
    cost / totalMwh

def weightedCurtailCost (m : Model) : ℚ :=
  weightedCurtailmentCost (estimatedCurtailmentMwh m) m.curtailmentTiers

def annualRevenueLost (m : Model) : ℚ :=
  estimatedCurtailmentMwh m * weightedCurtailCost m

/-! ## Capital stack (sections 3.1 and 3.3 of `CalculationClass.run`) -/

def landCost (m : Model) : ℚ :=
  m.siteLand.landParcelSizeAcres * m.siteLand.landCostPerAcreUsd

def preSubtotal (m : Model) : ℚ :=
  m.preconstruction.permittingRegulatoryUsd + m.preconstruction.environmentalStudiesUsd +
    m.preconstruction.geotechEngineeringUsd + m.preconstruction.interconnectionStudiesUsd +
    m.preconstruction.legalFeesUsd + m.preconstruction.titleInsuranceUsd +
    m.preconstruction.developmentMgmtUsd + m.preconstruction.sitePreparationUsd +
    m.preconstruction.utilityCoordinationUsd + m.preconstruction.financingFeesUsd

def totalPrecon (m : Model) : ℚ :=
  preSubtotal m + preSubtotal m * normalizePct m.preconstruction.contingencyPct

def powerSubtotal (m : Model) : ℚ :=
  m.powerInfrastructure.substationCapacityMva * m.powerInfrastructure.substationCostPerMvaUsd +
    m.powerInfrastructure.transmissionDistanceMiles * m.powerInfrastructure.transmissionCostPerMileUsd +
    m.powerInfrastructure.networkUpgradesUsd + m.powerInfrastructure.distributionInfraUsd

def totalPowerInfra (m : Model) : ℚ :=
  powerSubtotal m + powerSubtotal m * normalizePct m.powerInfrastructure.contingencyPct

def poweredLandCost (m : Model) : ℚ := landCost m + totalPrecon m + totalPowerInfra m

def dcSubtotal (m : Model) : ℚ :=
  m.dataCenter.totalItCapacityMw * m.dataCenter.constructionCostPerKwUsd * 1000 +
    m.dataCenter.ffeUsd + m.dataCenter.ownersCostsUsd

def totalDcCapex (m : Model) : ℚ :=
  dcSubtotal m + dcSubtotal m * normalizePct m.dataCenter.contingencyPct

def solarCapex (m : Model) : ℚ :=
  optimalSolarMw m * m.resourceCosts.solar.capitalCostPerKwUsd * 1000

def batteryCapex (m : Model) : ℚ :=
  (batteryPowerMw m * m.resourceCosts.battery.powerCostPerKwUsd +
    batteryEnergyMwh m * m.resourceCosts.battery.energyCostPerKwhUsd) * 1000

def gasCapex (m : Model) : ℚ :=
  gasCapacityMw m * m.resourceCosts.naturalGas.capitalCostPerKwUsd * 1000

/-- `wind_capex = 0.0` in the source; `total_byoc_capex` includes it. -/
def totalByocCapex (m : Model) : ℚ :=
  solarCapex m + 0 + batteryCapex m + gasCapex m

def totalProjectCost (m : Model) : ℚ :=
  poweredLandCost m + totalDcCapex m + totalByocCapex m

/-! ## Cash-flow projection (`build_cashflows` inside `CalculationClass.run`) -/

def discountRate (m : Model) : ℚ := normalizePct m.analysis.discountRatePct

def inflationRate (m : Model) : ℚ := normalizePct m.analysis.generalInflationRatePct

def periodYears (m : Model) : ℕ := m.analysis.analysisPeriodYears

def stabilizedOcc (m : Model) : ℚ := normalizePct m.revenue.stabilizedOccupancyPct

def contractEsc (m : Model) : ℚ := normalizePct m.revenue.contractEscalationRatePct

def opexEsc (m : Model) : ℚ := normalizePct m.opex.opexEscalationRatePct

def fuelEsc (m : Model) : ℚ := normalizePct m.resourceCosts.naturalGas.fuelPriceEscalationPct

def esaEsc (m : Model) : ℚ := normalizePct m.resourceCosts.esaGrid.energyEscalationPct

/-- Python `str.lower()` (the model-type names are ASCII, where
`Char.toLower` agrees with Python). -/
def pyLower (s : String) : String := ⟨s.data.map Char.toLower⟩

def baseLeaseRate (m : Model) : ℚ :=
  if pyLower m.revenue.revenueModelType = "colo" then
    m.revenue.baseLeaseRateColoUsdPerKwMonth * 1000
  else m.revenue.baseLeaseRateWholesaleUsdPerMwMonth

/-- One row of the cash-flow waterfall (fields rounded as in the source). -/
structure CashRow where
  year : ℕ
  occupancyRate : ℚ
  grossRevenueUsd : ℚ
  totalPowerCostsUsd : ℚ
  curtailmentLossUsd : ℚ
  totalOpexUsd : ℚ
  ebitdaUsd : ℚ
  depreciationUsd : ℚ
  ebitUsd : ℚ
  netFreeCashFlowUsd : ℚ
  cumulativeCashFlowUsd : ℚ
deriving DecidableEq

/-- Return value of `build_cashflows`: `(rows, series, payback_local,
positive_years)`. -/
structure CFOut where
  rows : List CashRow
  series : List ℚ
  payback : Option ℚ
  positiveYears : ℕ
deriving DecidableEq

/-- Occupancy ramp for a given year (1-based). -/
def occYear (m : Model) (year : ℕ) : ℚ :=
  if m.revenue.absorptionPeriodYears ≤ 0 then stabilizedOcc m
  else min ((year : ℚ) / m.revenue.absorptionPeriodYears) 1 * stabilizedOcc m

/-- Body of the `for year in range(1, period_years + 1)` loop; accumulators
are kept reversed and flipped once at the end. -/
def buildCashflowsAux (m : Model) (baseRate : ℚ) :
    ℕ → ℕ → ℚ → ℕ → Option ℚ → List CashRow → List ℚ → CFOut
  | 0, _, _, pos, pb, rowsAcc, seriesAcc =>
    { rows := rowsAcc.reverse, series := seriesAcc.reverse, payback := pb, positiveYears := pos }
  | n + 1, year, cum, pos, pb, rowsAcc, seriesAcc =>
    let stab := stabilizedOcc m
    let occ := occYear m year
    let occupiedMw := m.revenue.leasableItCapacityMw * occ
    let leaseRateY := baseRate * (1 + contractEsc m) ^ (year - 1)
    let grossRevenue := occupiedMw * leaseRateY * 12
    let inflationY := (1 + inflationRate m) ^ (year - 1)
    let solarOm := optimalSolarMw m * m.resourceCosts.solar.fixedOmPerKwYearUsd * 1000 * inflationY
    let batteryOm := batteryPowerMw m * m.resourceCosts.battery.fixedOmPerKwYearUsd * 1000 * inflationY
    let fuelPriceY := m.resourceCosts.naturalGas.fuelCostUsdPerMmbtu * (1 + fuelEsc m) ^ (year - 1)
    let gasCost :=
      gasCapacityMw m * m.resourceCosts.naturalGas.fixedOmPerKwYearUsd * 1000 * inflationY +
        gasAnnualGeneration m *
          (m.resourceCosts.naturalGas.heatRateMmbtuPerMwh * fuelPriceY +
            m.resourceCosts.naturalGas.variableOmPerMwhUsd)
    let esaEnergy :=
      esaCapacity m * (occ / max stab epsilon) * hoursPerYear * (1 / 2) *
        m.resourceCosts.esaGrid.energyRateUsdPerMwh * (1 + esaEsc m) ^ (year - 1)
    let esaDemand := esaCapacity m * m.resourceCosts.esaGrid.demandChargeUsdPerMwMonth * 12
    let totalPowerCosts := solarOm + batteryOm + gasCost + esaEnergy + esaDemand
    let curtailLoss := annualRevenueLost m * (occ / max stab epsilon)
    let facilityOps := m.opex.baseFacilityOpsUsdPerMwYear * occupiedMw * (1 + opexEsc m) ^ (year - 1)
    let propertyTaxes := totalProjectCost m * normalizePct m.opex.propertyTaxRatePct
    let insurance := occupiedMw * m.opex.insuranceUsdPerMwYear * (1 + opexEsc m) ^ (year - 1)
    let assetFee := grossRevenue * normalizePct m.opex.assetMgmtFeePct
    let otherGa := m.opex.otherGaUsdPerYear * inflationY
    let totalOpex := facilityOps + propertyTaxes + insurance + assetFee + otherGa
    let ebitda := grossRevenue - totalPowerCosts - curtailLoss - totalOpex
    let depreciation := totalProjectCost m / (max (periodYears m) 1 : ℕ)
    let ebit := ebitda - depreciation
    let yearFcf := ebitda
    let pos' := if 0 < yearFcf then pos + 1 else pos
    let prior := cum
    let cum' := cum + yearFcf
    let pb' :=
      match pb with
      | some p => some p
      | none =>
        if 0 ≤ cum' then
          some ((year : ℚ) - 1 + max 0 (min 1 (-prior / max (cum' - prior) epsilon)))
        else none
    let row : CashRow :=
      { year := year
        occupancyRate := roundQ 6 occ
        grossRevenueUsd := roundQ 2 grossRevenue
        totalPowerCostsUsd := roundQ 2 totalPowerCosts
        curtailmentLossUsd := roundQ 2 curtailLoss
        totalOpexUsd := roundQ 2 totalOpex
        ebitdaUsd := roundQ 2 ebitda
        depreciationUsd := roundQ 2 depreciation
        ebitUsd := roundQ 2 ebit
        netFreeCashFlowUsd := roundQ 2 yearFcf
        cumulativeCashFlowUsd := roundQ 2 cum' }
    buildCashflowsAux m baseRate n (year + 1) cum' pos' pb' (row :: rowsAcc) (yearFcf :: seriesAcc)

/-- `build_cashflows(base_rate_per_mw_month)`. -/
def buildCashflows (m : Model) (baseRate : ℚ) : CFOut :=
  buildCashflowsAux m baseRate (periodYears m) 1 (-(totalProjectCost m)) 0 none []
    [-(totalProjectCost m)]

/-- The base (uncalibrated) project cash-flow series. -/
def baseSeries (m : Model) : List ℚ := (buildCashflows m (baseLeaseRate m)).series

/-! ## Lease-rate calibration loop and `run` tail -/

def hurdleIrr (m : Model) : ℚ := normalizePct m.analysis.requiredEquityReturnPct

def targetBuffer (m : Model) : ℚ := normalizePct m.revenue.targetIrrBufferPct

def targetIrr (m : Model) : ℚ := max (hurdleIrr m + targetBuffer m) (hurdleIrr m)

/-- `irr if irr is not None and np.isfinite(irr) else -0.99` (every rational
is finite, so only the `None` branch maps to the sentinel). -/
def irrForCheck : Option ℚ → ℚ
  | some r => r
  | none => -99 / 100

/-- `max(1, int(period_years * 0.6))`; `int` truncates toward zero, embedded
as natural division since `period_years ≥ 0`. -/
def posThreshold (m : Model) : ℕ := max 1 (3 * periodYears m / 5)

/-- The "best scenario seen" tracking state of the calibration loop. -/
structure BestState where
  rows : List CashRow
  series : List ℚ
  payback : Option ℚ
  irr : ℚ
  positiveYears : ℕ
  rate : ℚ

/-- The geometric `while hi <= max_lease + EPSILON` growth phase.  The Python
loop can fail to terminate (e.g. for non-positive `hi`); the embedding
bounds it with fuel.  Every claim proved below is independent of the fuel. -/
def growLoop (m : Model) (tgt : ℚ) (thr : ℕ) (maxLease : ℚ) :
    ℕ → ℚ → BestState → ℚ × BestState
  | 0, hi, best => (hi, best)
  | fuel + 1, hi, best =>
    if hi ≤ maxLease + epsilon then
      let out := buildCashflows m hi
      let irrH := irrBisectionDefault out.series
      let irrHVal := irrForCheck irrH
      let best' :=
        if best.irr < irrHVal then
          { rows := out.rows, series := out.series, payback := out.payback,
            irr := irrHVal, positiveYears := out.positiveYears, rate := hi }
        else best
      if tgt ≤ irrHVal ∧ thr ≤ out.positiveYears then (hi, best')
      else growLoop m tgt thr maxLease fuel (hi * (5 / 4)) best'
    else (hi, best)

/-- The 40-iteration bisection phase over the lease rate. -/
def calibBisect (m : Model) (tgt : ℚ) (thr : ℕ) :
    ℕ → ℚ → ℚ → BestState → BestState
  | 0, _, _, best => best
  | n + 1, lo, hi, best =>
    let mid := (lo + hi) / 2
    let out := buildCashflows m mid
    let irrM := irrBisectionDefault out.series
    let irrMVal := irrForCheck irrM
    if tgt ≤ irrMVal ∧ thr ≤ out.positiveYears then
      calibBisect m tgt thr n lo mid
        { rows := out.rows, series := out.series, payback := out.payback,
          irr := irrMVal, positiveYears := out.positiveYears, rate := mid }
    else calibBisect m tgt thr n mid hi best

/-- State after the optional dynamic-lease calibration block. -/
structure PostCalib where
  rows : List CashRow
  series : List ℚ
  payback : Option ℚ
  irr : Option ℚ
  positiveYears : ℕ
  appliedRate : ℚ
  applied : Bool

def afterCalibration (fuel : ℕ) (m : Model) : PostCalib :=
  let base := baseLeaseRate m
  let cf0 := buildCashflows m base
  let irr0 := irrBisectionDefault cf0.series
  let noCal : PostCalib :=
    { rows := cf0.rows, series := cf0.series, payback := cf0.payback, irr := irr0,
      positiveYears := cf0.positiveYears, appliedRate := base, applied := false }
  if m.revenue.dynamicLeasePricingEnabled then
    let irrCheck := irrForCheck irr0
    if irrCheck < targetIrr m ∨ cf0.positiveYears < posThreshold m then
      let hi0 := max (base * (5 / 4)) (base + 10000)
      let maxLease := m.revenue.maxLeaseRateUsdPerMwMonth
      let best0 : BestState :=
        { rows := cf0.rows, series := cf0.series, payback := cf0.payback,
          irr := irrCheck, positiveYears := cf0.positiveYears, rate := base }
      let g := growLoop m (targetIrr m) (posThreshold m) maxLease fuel hi0 best0
      let hi1 := if maxLease < g.1 then maxLease else g.1
      let best := calibBisect m (targetIrr m) (posThreshold m) 40 base hi1 g.2
      if base + epsilon < best.rate then
        { rows := best.rows, series := best.series, payback := best.payback,
          irr := some best.irr, positiveYears := best.positiveYears,
          appliedRate := best.rate, applied := true }
      else noCal
    else noCal
  else noCal

/-- `summary_kpis` of the result.  JSON-nullable fields are `Option`-valued;
`project_irr_unlevered_pct` is always emitted as a number by the code
(`None` is mapped to `0.0`), hence always `some`. -/
structure SummaryKpis where
  projectIrrUnleveredPct : Option ℚ
  projectIrrLeveredPct : Option ℚ
  npvUsd : ℚ
  moic : ℚ
  simplePaybackYears : Option ℚ
  paybackPeriodYears : Option ℚ
  lcoeUsdMwh : ℚ
  lcoeUsdKwh : ℚ
  annualRevenueLostUsd : ℚ
  coverageRatio : ℚ
  firmCapacityRequiredMw : ℚ
  firmCapacityAvailableMw : ℚ
  totalProjectCostUsd : ℚ
  minDscr : ℚ
  baseLeaseRateUsdPerMwMonth : ℚ
  appliedLeaseRateUsdPerMwMonth : ℚ
  leaseRateCalibrationApplied : Bool
  targetIrrPct : ℚ
  hurdleIrrPct : ℚ
  positiveCashflowYears : ℕ
deriving DecidableEq

/-- The result object of `CalculationClass.run` (the `calculation_breakdown`
section, which only repeats roundings of quantities already embedded above,
is omitted). -/
structure RunOutput where
  summaryKpis : SummaryKpis
  cashFlowWaterfall : List CashRow
deriving DecidableEq

/-- `CalculationClass.run` after validation.  `fuel` bounds the calibration
growth loop (see `growLoop`). -/
def run (fuel : ℕ) (m : Model) : RunOutput :=
  let st := afterCalibration fuel m
  let irr1 :=
    match st.irr with
    | some r => some r
    | none => irrBisectionDefault st.series
  let irrPct : ℚ :=
    match irr1 with
    | some r => r * 100
    | none => 0
  let npv := npvAt st.series (discountRate m)
  let moic := (st.series.drop 1).sum / max |st.series.headI| epsilon
  let annualizedCapex := totalProjectCost m * engineCrf (discountRate m) (max (periodYears m) 1)
  let year1Power := ((st.rows.head?).map CashRow.totalPowerCostsUsd).getD 0
  let lcoeMwh := (annualizedCapex + year1Power) / max (annualEnergyDemand m) epsilon
  { summaryKpis :=
      { projectIrrUnleveredPct := some (roundQ 3 irrPct)
        projectIrrLeveredPct := some (roundQ 3 irrPct)
        npvUsd := roundQ 2 npv
        moic := roundQ 4 moic
        simplePaybackYears := st.payback.map (roundQ 3)
        paybackPeriodYears := st.payback.map (roundQ 3)
        lcoeUsdMwh := roundQ 3 lcoeMwh
        lcoeUsdKwh := roundQ 6 (lcoeMwh / 1000)
        annualRevenueLostUsd := roundQ 2 (annualRevenueLost m)
        coverageRatio := roundQ 6 (coverageRatio m)
        firmCapacityRequiredMw := roundQ 6 (grossFirmReq m)
        firmCapacityAvailableMw := roundQ 6 (totalFirmAccredited m)
        totalProjectCostUsd := roundQ 2 (totalProjectCost m)
        minDscr := 999
        baseLeaseRateUsdPerMwMonth := roundQ 2 (baseLeaseRate m)
        appliedLeaseRateUsdPerMwMonth := roundQ 2 st.appliedRate
        leaseRateCalibrationApplied := st.applied
        targetIrrPct := roundQ 3 (targetIrr m * 100)
        hurdleIrrPct := roundQ 3 (hurdleIrr m * 100)
        positiveCashflowYears := st.positiveYears }
    cashFlowWaterfall := st.rows }

/-! ## Payload bridge (`CalculationClass._build_model_inputs`)

Embedded for payloads whose `byoc_inputs` override tree is absent (or
empty).  For such payloads `_deep_merge(DEFAULT_BYOC_INPUTS, {})` returns a
*shallow* copy of the default tree: every section dict of the merged model
aliases the corresponding dict inside the module-level `DEFAULT_BYOC_INPUTS`.
Consequently every in-place write performed by `_build_model_inputs`
(the `site_context` bridge, the asset/financial bridges, and the tier-1
reconciliation) mutates `DEFAULT_BYOC_INPUTS` itself, and the resulting
model tree is content-equal to the mutated default tree.  `stepEngine`
below is therefore simultaneously the model constructor and the state
transition on the module-level default tree. -/

structure SiteContext where
  facilityPeakLoadKw : Option ℚ
deriving DecidableEq

structure AssetParameters where
  nameplateCapacityKw : Option ℚ
  fuelPriceUsdPerMmbtu : Option ℚ
  fuelEscalatorPct : Option ℚ
  heatRateBtuKwh : Option ℚ
deriving DecidableEq

structure FinancialAssumptions where
  discountRatePct : Option ℚ
  inflationRatePct : Option ℚ
deriving DecidableEq

/-- An engine payload with no `byoc_inputs` overrides.  `none` for a section
models an absent (or empty, hence falsy) dict. -/
structure EnginePayload where
  siteContext : Option SiteContext
  assetParameters : Option AssetParameters
  financialAssumptions : Option FinancialAssumptions
deriving DecidableEq

/-- The `if self.site:` compatibility bridge. -/
def bridgeSite (m : Model) (p : EnginePayload) : Model :=
  match p.siteContext with
  | none => m
  | some s =>
    let peakMw := s.facilityPeakLoadKw.getD 0 / 1000
    if 0 < peakMw then
      { m with
        loadProfile := { m.loadProfile with peakItLoadMw := peakMw }
        dataCenter :=
          { m.dataCenter with totalItCapacityMw := max m.dataCenter.totalItCapacityMw peakMw } }
    else m

/-- The `if self.asset:` compatibility bridge. -/
def bridgeAsset (m : Model) (p : EnginePayload) : Model :=
  match p.assetParameters with
  | none => m
  | some a =>
    let genMw := a.nameplateCapacityKw.getD 0 / 1000
    let ng0 := m.resourceCosts.naturalGas
    let ng1 :=
      if 0 < genMw then
        { ng0 with seedNameplateMw := some (ng0.seedNameplateMw.getD genMw) }
      else ng0
    let ng2 :=
      match a.fuelPriceUsdPerMmbtu with
      | some fp => { ng1 with fuelCostUsdPerMmbtu := fp }
      | none => ng1
    let ng3 :=
      match a.fuelEscalatorPct with
      | some fe => { ng2 with fuelPriceEscalationPct := fe }
      | none => ng2
    let ng4 :=
      match a.heatRateBtuKwh with
      | some hr => { ng3 with heatRateMmbtuPerMwh := hr / 1000 }
      | none => ng3
    { m with resourceCosts := { m.resourceCosts with naturalGas := ng4 } }

/-- The `if self.fin:` compatibility bridge. -/
def bridgeFin (m : Model) (p : EnginePayload) : Model :=
  match p.financialAssumptions with
  | none => m
  | some f =>
    let a0 := m.analysis
    let a1 :=
      match f.discountRatePct with
      | some d => { a0 with discountRatePct := d }
      | none => a0
    let a2 :=
      match f.inflationRatePct with
      | some i => { a1 with generalInflationRatePct := i }
      | none => a1
    { m with analysis := a2 }

/-- Set the `mw` of the first tier named `tier1` (identity as in the Python
`next((t for t in tiers if t.get("name") == "tier1"), None)`). -/
def setTier1Mw : List Tier → ℚ → List Tier
  | [], _ => []
  | t :: ts, v => if t.name = "tier1" then { t with mw := v } :: ts else t :: setTier1Mw ts v

def findTier1 (ts : List Tier) : Option Tier := ts.find? (fun t => t.name = "tier1")

/-- The tier-sum reconciliation at the end of `_build_model_inputs`. -/
def reconcileTiers (m : Model) : Model :=
  let peak := m.loadProfile.peakItLoadMw
  let tierTotal := tierMwSum m
  if 0 < peak ∧ 1 / 1000 < |tierTotal - peak| then
    match findTier1 m.curtailmentTiers with
    | none => m
    | some t1 =>
      let otherTotal := tierTotal - t1.mw
      { m with curtailmentTiers := setTier1Mw m.curtailmentTiers (max (peak - otherTotal) 0) }
  else m

/-- `_build_model_inputs` for a payload with empty `byoc_inputs`: both the
returned model and the new content of `DEFAULT_BYOC_INPUTS` (they coincide,
see the section comment). -/
def stepEngine (defaults : Model) (p : EnginePayload) : Model :=
  reconcileTiers (bridgeFin (bridgeAsset (bridgeSite defaults p) p) p)

/-! ## lcoe.py -/

/-- `compute_crf` (lcoe.py; unlike the engine's `_crf` it has no
`years <= 0` guard and compares `wacc` with `0` exactly). -/
def computeCrf (wacc : ℚ) (years : ℕ) : ℚ :=
  if wacc = 0 then 1 / (years : ℚ)
  else (wacc * (1 + wacc) ^ years) / ((1 + wacc) ^ years - 1)

/-- `compute_lcoe_gas`.  Lines 56–84 of lcoe.py compute values that are
fully overwritten by the clean recomputation starting at `lcoe =
fuel_cost_per_mwh` (line 90); only that final computation is embedded. -/
def computeLcoeGas (heatRateBtuKwh gasPricePerMmbtu fixedOmPerKwYear capacityFactor
    capexPerKw wacc : ℚ) (lifeYears : ℕ) : ℚ :=
  let fuelCostPerMwh := heatRateBtuKwh * gasPricePerMmbtu / 1000
  let lcoe1 :=
    if 0 < capacityFactor then
      fuelCostPerMwh + fixedOmPerKwYear / (capacityFactor * 8760) * 1000
    else fuelCostPerMwh
  if 0 < capexPerKw ∧ 0 < capacityFactor then
    lcoe1 + capexPerKw * computeCrf wacc lifeYears / (capacityFactor * 8760) * 1000
  else lcoe1

/-- Cost scenario parameters (the keys `compute_annual_costs` and
`build_and_solve` read). -/
structure CostParams where
  solarCapexPerKw : ℚ
  solarOmPerKwYear : ℚ
  solarLifeYears : ℕ
  batteryEnergyCapexPerKwh : ℚ
  batteryPowerCapexPerKw : ℚ
  batteryOmPerKwYear : ℚ
  batteryLifeYears : ℕ
  inverterEfficiency : ℚ
  batteryRte : ℚ
  wacc : ℚ
  gasPricePerMmbtu : ℚ
deriving DecidableEq

/-- `compute_annual_costs(...)["total"]` (the only key the solver's net-LCOE
computation consumes; the dict's other entries are the three addends and a
literal `0.0`). -/
def computeAnnualCostsTotal (solarMw battPowerMw battEnergyMwh gasGenMwh
    gasVariableCost : ℚ) (cp : CostParams) : ℚ :=
  let solarCrf := computeCrf cp.wacc cp.solarLifeYears
  let batteryCrf := computeCrf cp.wacc cp.batteryLifeYears
  let solarCost := cp.solarCapexPerKw * solarMw * 1000 * solarCrf +
    cp.solarOmPerKwYear * solarMw * 1000
  let batteryCost := cp.batteryEnergyCapexPerKwh * battEnergyMwh * 1000 * batteryCrf +
    cp.batteryPowerCapexPerKw * battPowerMw * 1000 * batteryCrf +
    cp.batteryOmPerKwYear * battPowerMw * 1000
  let gasCost := gasGenMwh * gasVariableCost
  solarCost + batteryCost + gasCost

/-! ## solver.py: profile compression and CF-hint rescaling -/

/-- `days_in_month` (non-leap year). -/
def daysInMonth : List ℕ := [31, 28, 31, 30, 31, 30, 31, 31, 30, 31, 30, 31]

/-- Index of the first hour of month `m` in an 8760-hour series. -/
def monthStartHour (m : ℕ) : ℕ := 24 * ((daysInMonth.take m).sum)

/-- `compress_to_representative_days`, as a function of the hour index.  The
source slices `profile_8760[hour_idx : hour_idx + month_hours]` and reads
`month_data[d * 24 + h]`, i.e. absolute index `monthStartHour m + d*24 + h`;
the representative value is the day-average rounded to 5 decimals. -/
def compress288 (profile : ℕ → ℚ) (t : ℕ) : ℚ :=
  let m := t / 24
  let h := t % 24
  let nd := daysInMonth.getD m 0
  roundQ 5 ((∑ d ∈ Finset.range nd, profile (monthStartHour m + d * 24 + h)) / (nd : ℚ))

/-- The `solar_cf_hint` rescaling block of `run_optimization`
(solver.py lines 335–341). -/
def applyCfHint (solarCfHint : Option ℚ) (profile : List ℚ) : List ℚ :=
  match solarCfHint with
  | none => profile
  | some hv =>
    if 0 < hv then
      let normalizedCf := if 1 < hv then hv / 100 else hv
      let normalizedCf := max (5 / 100) (min (45 / 100) normalizedCf)
      let profileAvg := profile.sum / (max profile.length 1 : ℕ)
      if 0 < profileAvg then
        let scaleCf := normalizedCf / profileAvg
        profile.map (fun v => max 0 (min 1 (roundQ 5 (v * scaleCf))))
      else profile
    else profile

/-! ## model.py: the MILP constraint system and result extraction

The solver binary (HiGHS/CBC) is external; `build_and_solve` hands it the
constraint system below and accepts whatever variable assignment it
returns.  `FeasibleAsg` is that constraint system, translated from the
`prob +=` statements; an assignment the solver reports as a solution
satisfies it.  `math.sqrt(rte)` is taken as the explicit parameter
`sqrtRte`. -/

/-- A variable assignment for the LP (capacities and the 288-step dispatch). -/
structure Asg where
  solarCap : ℚ
  battPower : ℚ
  battEnergy : ℚ
  solarGen : ℕ → ℚ
  battCharge : ℕ → ℚ
  battDischarge : ℕ → ℚ
  gasGen : ℕ → ℚ
  soc : ℕ → ℚ

/-- `t_prev = T[-1] if t == 0 else t - 1`. -/
def tPrev (t : ℕ) : ℕ := if t = 0 then 287 else t - 1

/-- The constraint system of `build_and_solve` (`lowBound=0` bounds plus
constraints 1–12). -/
abbrev FeasibleAsg (targetLoadMw maxGasBackupPct : ℚ) (profile : ℕ → ℚ)
    (gasCapacityMw sqrtRte inverterEff : ℚ) (conflictHours : Finset ℕ)
    (maxSolarMw : Option ℚ) (a : Asg) : Prop :=
  (∀ t < 288,
    0 ≤ a.solarGen t ∧ 0 ≤ a.battCharge t ∧ 0 ≤ a.battDischarge t ∧
    0 ≤ a.gasGen t ∧ 0 ≤ a.soc t ∧
    targetLoadMw ≤ a.solarGen t * inverterEff + a.battDischarge t * sqrtRte -
      a.battCharge t / sqrtRte + a.gasGen t ∧
    a.solarGen t ≤ a.solarCap * profile t ∧
    a.battCharge t ≤ a.battPower ∧
    a.battDischarge t ≤ a.battPower ∧
    a.soc t = a.soc (tPrev t) + a.battCharge t - a.battDischarge t ∧
    a.soc t ≤ a.battEnergy ∧
    a.gasGen t ≤ gasCapacityMw ∧
    (t ∈ conflictHours → a.gasGen t = 0)) ∧
  0 ≤ a.solarCap ∧ 0 ≤ a.battPower ∧ 0 ≤ a.battEnergy ∧
  a.battEnergy ≤ 6 * a.battPower ∧
  a.battPower ≤ a.solarCap ∧
  (∑ t ∈ Finset.range 288, a.gasGen t) ≤ maxGasBackupPct * targetLoadMw * 288 ∧
  (match maxSolarMw with
   | none => True
   | some ms => a.solarCap ≤ ms)

/-- The fields of the `build_and_solve` result dict consumed downstream by
`run_optimization` (the per-hour dispatch list and the objective value are
not needed by any claim and are omitted). -/
structure SolveResult where
  solarCapacityMw : ℚ
  batteryPowerMw : ℚ
  batteryEnergyMwh : ℚ
  gasGenTotal : ℚ
  solarGenTotal : ℚ
deriving DecidableEq

/-- `DAYS_PER_MONTH = 365.0 / 12`. -/
def scaleFactor : ℚ := 365 / 12

/-- Result extraction at the end of `build_and_solve`. -/
def extractResults (a : Asg) : SolveResult :=
  { solarCapacityMw := roundQ 3 a.solarCap
    batteryPowerMw := roundQ 3 a.battPower
    batteryEnergyMwh := roundQ 3 a.battEnergy
    gasGenTotal := roundQ 2 ((∑ t ∈ Finset.range 288, a.gasGen t) * scaleFactor)
    solarGenTotal := roundQ 2 ((∑ t ∈ Finset.range 288, a.solarGen t) * scaleFactor) }

/-- `_gas_variable_cost`. -/
def gasVariableCost (heatRate gasPrice : ℚ) : ℚ := heatRate * gasPrice / 1000

/-- The response fields of `run_optimization` named by the claims
(solver.py steps 5–8). -/
structure OptResponse where
  solarCapacityMw : ℚ
  batteryPowerMw : ℚ
  batteryEnergyMwh : ℚ
  netLcoe : ℚ
  gasBackupActual : ℚ
deriving DecidableEq

/-- Assembly of those response fields from the `build_and_solve` result. -/
def assembleResponse (targetLoadMw : ℚ) (cp : CostParams) (gasHeatRate : ℚ)
    (r : SolveResult) : OptResponse :=
  let annualLoadMwh := targetLoadMw * 8760
  let gasVarCost := gasVariableCost gasHeatRate cp.gasPricePerMmbtu
  let costsTotal := computeAnnualCostsTotal r.solarCapacityMw r.batteryPowerMw
    r.batteryEnergyMwh r.gasGenTotal gasVarCost cp
  let netLcoe := if 0 < annualLoadMwh then costsTotal / annualLoadMwh else 0
  let gasBackupActual := if 0 < annualLoadMwh then r.gasGenTotal / annualLoadMwh else 0
  { solarCapacityMw := roundQ 2 r.solarCapacityMw
    batteryPowerMw := roundQ 2 r.batteryPowerMw
    batteryEnergyMwh := roundQ 2 r.batteryEnergyMwh
    netLcoe := roundQ 2 netLcoe
    gasBackupActual := roundQ 4 gasBackupActual }

/-! ## Concrete inputs used by individual claims -/

/-- Default inputs with `analysis.max_gas_backup_pct` overridden to `0.5`. -/
def c1Model : Model :=
  { defaultByocInputs with
    analysis := { defaultByocInputs.analysis with maxGasBackupPct := some (1 / 2) } }

/-- A payload carrying only `site_context.facility_peak_load_kw = 95000`. -/
def c2Payload1 : EnginePayload :=
  { siteContext := some { facilityPeakLoadKw := some 95000 }
    assetParameters := none
    financialAssumptions := none }

/-- The empty payload. -/
def c2Payload2 : EnginePayload :=
  { siteContext := none, assetParameters := none, financialAssumptions := none }

/-- Default inputs with a zero lease rate and dynamic lease pricing disabled:
every projected cash flow is negative, so the IRR bracket has no sign
change. -/
def c3Model : Model :=
  { defaultByocInputs with
    revenue :=
      { defaultByocInputs.revenue with
        baseLeaseRateWholesaleUsdPerMwMonth := 0
        dynamicLeasePricingEnabled := false } }

/-- A cash-flow series scaled so steeply that a 200-iteration bracket is not
tight enough to pin the NPV near zero. -/
def c4Cashflows : List ℚ := [10 ^ 60, -(10 ^ 60)]

/-- All-zero cost parameters (lifetimes 1 year) for constructing concrete
MILP responses. -/
def c5CostParams : CostParams :=
  { solarCapexPerKw := 0, solarOmPerKwYear := 0, solarLifeYears := 1
    batteryEnergyCapexPerKwh := 0, batteryPowerCapexPerKw := 0, batteryOmPerKwYear := 0
    batteryLifeYears := 1, inverterEfficiency := 1, batteryRte := 1, wacc := 0
    gasPricePerMmbtu := 0 }

/-- A feasible assignment with a tiny battery (`0.001 MW / 0.006 MWh`): gas
serves the whole 1-MW load and the battery never cycles. -/
def c5Asg : Asg :=
  { solarCap := 1 / 1000, battPower := 1 / 1000, battEnergy := 6 / 1000
    solarGen := fun _ => 0, battCharge := fun _ => 0, battDischarge := fun _ => 0
    gasGen := fun _ => 1, soc := fun _ => 0 }

/-- A feasible assignment serving a 1-MW load entirely from gas, with 1 MW
of solar capacity held idle. -/
def c5WitnessAsg : Asg :=
  { solarCap := 1, battPower := 0, battEnergy := 0
    solarGen := fun _ => 0, battCharge := fun _ => 0, battDischarge := fun _ => 0
    gasGen := fun _ => 1, soc := fun _ => 0 }

/-- A flat 288-sample profile of `0.5`. -/
def c9Profile : List ℚ := List.replicate 288 (1 / 2)

/-! # Theorems -/

attribute [local semireducible] Rat.add Rat.mul Rat.inv Rat.sub

set_option maxRecDepth 1000000

/-! ## Rounding lemmas -/

theorem rhe_mem (q : ℚ) : rhe q = ⌊q⌋ ∨ rhe q = ⌊q⌋ + 1 := by
  unfold rhe
  split
  · exact Or.inl rfl
  · split
    · exact Or.inr rfl
    · split
      · exact Or.inl rfl
      · exact Or.inr rfl

theorem abs_rhe_sub_le (q : ℚ) : |(rhe q : ℚ) - q| ≤ 1 / 2 := by
  have hfl : (⌊q⌋ : ℚ) ≤ q := Int.floor_le q
  have hfl2 : q - 1 < (⌊q⌋ : ℚ) := Int.sub_one_lt_floor q
  unfold rhe
  split
  · rw [abs_sub_comm, abs_of_nonneg (by linarith)]
    linarith
  · rename_i h1
    push_neg at h1
    split
    · rename_i h2
      rw [abs_of_nonneg (by push_cast; linarith)]
      push_cast
      linarith
    · rename_i h2
      push_neg at h2
      have heq : q - (⌊q⌋ : ℚ) = 1 / 2 := le_antisymm h2 h1
      split
      · rw [abs_sub_comm, abs_of_nonneg (by linarith)]
        linarith
      · rw [abs_of_nonneg (by push_cast; linarith)]
        push_cast
        linarith

/-- Characterization of the two possible outputs of `rhe`. -/
theorem rhe_spec (q : ℚ) :
    (rhe q = ⌊q⌋ ∧ (q - ⌊q⌋ < 1 / 2 ∨ (q - ⌊q⌋ = 1 / 2 ∧ Even ⌊q⌋))) ∨
    (rhe q = ⌊q⌋ + 1 ∧ (1 / 2 < q - ⌊q⌋ ∨ (q - ⌊q⌋ = 1 / 2 ∧ ¬Even ⌊q⌋))) := by
  unfold rhe
  split
  · rename_i h1
    exact Or.inl ⟨rfl, Or.inl h1⟩
  · rename_i h1
    push_neg at h1
    split
    · rename_i h2
      exact Or.inr ⟨rfl, Or.inl h2⟩
    · rename_i h2
      push_neg at h2
      have heq : q - (⌊q⌋ : ℚ) = 1 / 2 := le_antisymm h2 h1
      split
      · rename_i h3
        exact Or.inl ⟨rfl, Or.inr ⟨heq, h3⟩⟩
      · rename_i h3
        exact Or.inr ⟨rfl, Or.inr ⟨heq, h3⟩⟩

theorem rhe_mono {q q' : ℚ} (h : q ≤ q') : rhe q ≤ rhe q' := by
  have hf : ⌊q⌋ ≤ ⌊q'⌋ := Int.floor_le_floor h
  rcases rhe_spec q with ⟨h1, _⟩ | ⟨h1, hc1⟩ <;>
    rcases rhe_spec q' with ⟨h2, hc2⟩ | ⟨h2, _⟩ <;> rw [h1, h2]
  · exact hf
  · omega
  · -- hard case: rhe q = ⌊q⌋ + 1, rhe q' = ⌊q'⌋
    rcases lt_or_eq_of_le hf with hlt | heqf
    · omega
    · exfalso
      have hfr : q - (⌊q⌋ : ℚ) ≤ q' - (⌊q'⌋ : ℚ) := by
        have hc : ((⌊q⌋ : ℚ)) = ((⌊q'⌋ : ℚ)) := by exact_mod_cast heqf
        linarith
      rcases hc1 with hgt | ⟨heq1, hodd⟩
      · rcases hc2 with hlt2 | ⟨heq2, _⟩ <;> linarith
      · rcases hc2 with hlt2 | ⟨heq2, heven⟩
        · linarith
        · exact hodd (heqf ▸ heven)
  · omega

theorem roundQ_mono (d : ℕ) {x y : ℚ} (h : x ≤ y) : roundQ d x ≤ roundQ d y := by
  unfold roundQ
  have hp : (0 : ℚ) < 10 ^ d := by positivity
  apply (div_le_div_iff_of_pos_right hp).mpr
  exact_mod_cast rhe_mono (mul_le_mul_of_nonneg_right h (le_of_lt hp))

theorem abs_roundQ_sub_le (d : ℕ) (x : ℚ) : |roundQ d x - x| ≤ 1 / (2 * 10 ^ d) := by
  unfold roundQ
  have hp : (0 : ℚ) < 10 ^ d := by positivity
  have h := abs_rhe_sub_le (x * 10 ^ d)
  have key : (rhe (x * 10 ^ d) : ℚ) / 10 ^ d - x = ((rhe (x * 10 ^ d) : ℚ) - x * 10 ^ d) / 10 ^ d := by
    rw [sub_div, mul_div_cancel_right₀ x (ne_of_gt hp)]
  have hrw : (1 : ℚ) / (2 * 10 ^ d) = (1 / 2) / 10 ^ d := (div_div 1 2 (10 ^ d)).symm
  rw [key, abs_div, abs_of_pos hp, hrw]
  exact (div_le_div_iff_of_pos_right hp).mpr h

theorem roundQ_nonneg (d : ℕ) {x : ℚ} (h : 0 ≤ x) : 0 ≤ roundQ d x := by
  have h0 : roundQ d 0 = 0 := by
    simp [roundQ, rhe]
  calc (0 : ℚ) = roundQ d 0 := h0.symm
    _ ≤ roundQ d x := roundQ_mono d h

theorem roundQ_le_add (d : ℕ) (x : ℚ) : roundQ d x ≤ x + 1 / (2 * 10 ^ d) := by
  have h := abs_roundQ_sub_le d x
  have := abs_le.mp h
  linarith [this.2]

theorem roundQ_ge_sub (d : ℕ) (x : ℚ) : x - 1 / (2 * 10 ^ d) ≤ roundQ d x := by
  have h := abs_roundQ_sub_le d x
  have := abs_le.mp h
  linarith [this.1]

theorem roundQ_zero (d : ℕ) : roundQ d 0 = 0 := by
  simp [roundQ, rhe]

/-! ## Capital-recovery-factor lemma -/

theorem computeCrf_nonneg {w : ℚ} {n : ℕ} (hw : 0 ≤ w) (hn : 0 < n) :
    0 ≤ computeCrf w n := by
  unfold computeCrf
  split
  · positivity
  · rename_i hne
    have hw' : 0 < w := lt_of_le_of_ne hw (Ne.symm hne)
    apply div_nonneg
    · positivity
    · have h1 : (1 : ℚ) < (1 + w) ^ n := one_lt_pow₀ (by linarith) (Nat.pos_iff_ne_zero.mp hn)
      linarith

/-! ## C6: gas-only LCOE formula -/

/-- C6: for heat rate `H` (BTU/kWh), gas price `P` ($/MMBtu), fixed O&M `f`
($/kW-yr), capacity factor `CF > 0`, capex `c ≥ 0`, wacc `r` and life `n`,
`compute_lcoe_gas` returns
`H·P/1000 + f·1000/(CF·8760) + c·CRF(r,n)·1000/(CF·8760)`, and the third
term is zero when `c = 0`. -/
theorem c6_gas_lcoe_formula (H P f CF c w : ℚ) (n : ℕ)
    (hcf : 0 < CF) (hc : 0 ≤ c) :
    computeLcoeGas H P f CF c w n =
      H * P / 1000 + f * 1000 / (CF * 8760) + c * computeCrf w n * 1000 / (CF * 8760) ∧
    (c = 0 → c * computeCrf w n * 1000 / (CF * 8760) = 0) := by
  have hcf8760 : CF * 8760 ≠ 0 := by positivity
  constructor
  · simp only [computeLcoeGas]
    rcases lt_or_eq_of_le hc with hpos | hzero
    · rw [if_pos hcf, if_pos (show 0 < c ∧ 0 < CF from ⟨hpos, hcf⟩)]
      field_simp
    · rw [if_pos hcf, if_neg (show ¬(0 < c ∧ 0 < CF) by
        rw [← hzero]; rintro ⟨h0, -⟩; exact lt_irrefl 0 h0)]
      rw [← hzero]
      field_simp
  · intro h0
    rw [h0]
    ring

/-- C6 witness: the formula at `H=8500, P=3.5, f=15, CF=0.3, c=0, w=0.06,
n=30`. -/
theorem c6_gas_lcoe_formula_witness :
    computeLcoeGas 8500 (7 / 2) 15 (3 / 10) 0 (3 / 50) 30 =
      8500 * (7 / 2) / 1000 + 15 * 1000 / ((3 / 10) * 8760) +
        0 * computeCrf (3 / 50) 30 * 1000 / ((3 / 10) * 8760) ∧
    ((0 : ℚ) = 0 → (0 : ℚ) * computeCrf (3 / 50) 30 * 1000 / ((3 / 10) * 8760) = 0) :=
  c6_gas_lcoe_formula 8500 (7 / 2) 15 (3 / 10) 0 (3 / 50) 30 (by norm_num) (by norm_num)

/-! ## C10: the `min_dscr` KPI is the constant 999.0 -/

/-- C10: for every validated model (and any calibration fuel), the summary
KPI `min_dscr` is the constant `999.0`; no debt-service coverage ratio is
computed from the inputs. -/
theorem c10_min_dscr_constant (fuel : ℕ) (m : Model) (_hv : validateOk m = true) :
    (run fuel m).summaryKpis.minDscr = 999 := rfl

/-- C10 witness: the default input tree validates and reports
`min_dscr = 999.0`. -/
theorem c10_min_dscr_constant_witness :
    (run 0 defaultByocInputs).summaryKpis.minDscr = 999 :=
  c10_min_dscr_constant 0 defaultByocInputs (by decide)

/-! ## C1: the gas step of the priority allocation -/

/-- C1 (amended): the gas step allocates
`gas_elcc = min(remaining_firm, gross_firm_req · max_gas_backup_pct)` — the
cap is the *gross* firm requirement times the fraction, not the remaining
requirement times it — and the nameplate is `gas_elcc / gas_ELCC` whenever
the gas ELCC is at least `EPSILON` and the gross requirement is
nonnegative. -/
theorem c1_gas_allocation (m : Model)
    (hg : epsilon ≤ m.resourceCosts.naturalGas.elcc)
    (hgross : 0 ≤ grossFirmReq m) :
    gasElccAlloc m = min (remainingFirmAfterSolar m) (grossFirmReq m * maxGasBackupPctEff m) ∧
    gasElccAlloc m ≤ grossFirmReq m * maxGasBackupPctEff m ∧
    gasCapacityMw m = gasElccAlloc m / m.resourceCosts.naturalGas.elcc := by
  refine ⟨rfl, min_le_right _ _, ?_⟩
  have halloc : 0 ≤ gasElccAlloc m := by
    apply le_min
    · exact le_max_right _ 0
    · exact mul_nonneg hgross (le_max_left 0 _)
  have helcc : 0 < m.resourceCosts.naturalGas.elcc :=
    lt_of_lt_of_le (by norm_num [epsilon]) hg
  unfold gasCapacityMw
  rw [max_eq_left hg]
  exact max_eq_left (div_nonneg halloc (le_of_lt helcc))

/-- C1 witness: the allocation identity at the default tree with
`max_gas_backup_pct = 0.5`. -/
theorem c1_gas_allocation_witness :
    gasElccAlloc c1Model =
      min (remainingFirmAfterSolar c1Model) (grossFirmReq c1Model * maxGasBackupPctEff c1Model) ∧
    gasElccAlloc c1Model ≤ grossFirmReq c1Model * maxGasBackupPctEff c1Model ∧
    gasCapacityMw c1Model = gasElccAlloc c1Model / c1Model.resourceCosts.naturalGas.elcc :=
  c1_gas_allocation c1Model (by decide) (by decide)

/-- C1 counterexample to the claim as stated: with the defaults and
`max_gas_backup_pct = 0.5` the payload validates, yet the allocated gas firm
credit strictly exceeds `remaining_firm · max_gas_backup_pct`
(≈ 33.69 > ≈ 16.84). -/
theorem c1_counterexample :
    validateOk c1Model = true ∧
    remainingFirmAfterSolar c1Model * maxGasBackupPctEff c1Model < gasElccAlloc c1Model :=
  ⟨by decide, by decide⟩

/-! ## C2: state leaks across engine calls through `DEFAULT_BYOC_INPUTS` -/

/-- C2: `_deep_merge` copies only the top level of the default tree, so
`_build_model_inputs` mutates the module-level `DEFAULT_BYOC_INPUTS`
in place.  Running the engine first on a payload with
`site_context.facility_peak_load_kw = 95000` (which validates) changes the
model that a subsequent empty payload produces: its peak load is 95 MW
instead of the default 90 MW, and tier1 is resized from 35 MW to 40 MW. -/
theorem c2_default_tree_mutation :
    validateOk (stepEngine defaultByocInputs c2Payload1) = true ∧
    validateOk (stepEngine defaultByocInputs c2Payload2) = true ∧
    (stepEngine defaultByocInputs c2Payload2).loadProfile.peakItLoadMw = 90 ∧
    (stepEngine (stepEngine defaultByocInputs c2Payload1) c2Payload2).loadProfile.peakItLoadMw = 95 ∧
    stepEngine (stepEngine defaultByocInputs c2Payload1) c2Payload2 ≠
      stepEngine defaultByocInputs c2Payload2 :=
  ⟨by decide, by decide, by decide, by decide, by decide⟩

/-! ## C7: curtailment tier sum invariant -/

theorem setTier1_sum (v : ℚ) :
    ∀ (ts : List Tier) (t1 : Tier), findTier1 ts = some t1 →
      ((setTier1Mw ts v).map Tier.mw).sum = (ts.map Tier.mw).sum - t1.mw + v := by
  intro ts
  induction ts with
  | nil => intro t1 h; simp [findTier1] at h
  | cons t rest ih =>
    intro t1 h
    by_cases hname : t.name = "tier1"
    · rw [findTier1, List.find?_cons_of_pos _ (by simp [hname])] at h
      injection h with h
      subst h
      simp only [setTier1Mw, if_pos hname, List.map_cons, List.sum_cons]
      ring
    · rw [findTier1, List.find?_cons_of_neg _ (by simp [hname])] at h
      have hrec := ih t1 h
      simp only [setTier1Mw, if_neg hname, List.map_cons, List.sum_cons, hrec]
      ring

/-- C7: (a) every model passing `_validate_guardrails` has its curtailment
tier MW values summing to `peak_it_load_mw` within the 1e-3 tolerance; and
(b) reconciling a merged model that has a tier named `tier1` and positive
peak load, with the other tiers not exceeding the peak, restores the
invariant exactly (the tier1 MW is set to `peak - other_total`). -/
theorem c7_tier_sum_invariant :
    (∀ m : Model, validateOk m = true →
      |tierMwSum m - m.loadProfile.peakItLoadMw| ≤ 1 / 1000) ∧
    (∀ (m : Model) (t1 : Tier), findTier1 m.curtailmentTiers = some t1 →
      0 < m.loadProfile.peakItLoadMw →
      tierMwSum m - t1.mw ≤ m.loadProfile.peakItLoadMw →
      |tierMwSum (reconcileTiers m) - (reconcileTiers m).loadProfile.peakItLoadMw| ≤ 1 / 1000) := by
  constructor
  · intro m hv
    unfold validateOk at hv
    simp only [Bool.and_eq_true, decide_eq_true_eq] at hv
    exact hv.1.2
  · intro m t1 hfind hpeak hother
    have habs : ∀ s p t : ℚ, |s - t + (p - (s - t)) - p| ≤ 1 / 1000 := by
      intro s p t
      have h0 : s - t + (p - (s - t)) - p = 0 := by ring
      rw [h0]
      norm_num
    unfold reconcileTiers
    by_cases hcond : 0 < m.loadProfile.peakItLoadMw ∧
        1 / 1000 < |tierMwSum m - m.loadProfile.peakItLoadMw|
    · rw [if_pos hcond, hfind]
      unfold tierMwSum at hother ⊢
      dsimp only
      rw [setTier1_sum _ _ _ hfind, max_eq_left (by linarith)]
      exact habs _ _ _
    · rw [if_neg hcond]
      push_neg at hcond
      exact hcond hpeak

/-- C7 witness: part (a) at the default tree; part (b) at the default tree
with peak raised to 95 MW (the state produced by the `c2Payload1` bridge
before reconciliation). -/
theorem c7_tier_sum_invariant_witness :
    |tierMwSum defaultByocInputs - defaultByocInputs.loadProfile.peakItLoadMw| ≤ 1 / 1000 ∧
    |tierMwSum (reconcileTiers (bridgeSite defaultByocInputs c2Payload1)) -
      (reconcileTiers (bridgeSite defaultByocInputs c2Payload1)).loadProfile.peakItLoadMw| ≤
        1 / 1000 :=
  ⟨c7_tier_sum_invariant.1 defaultByocInputs (by decide),
   c7_tier_sum_invariant.2 (bridgeSite defaultByocInputs c2Payload1)
     { name := "tier1", mw := 35, maxEventHours := 0, maxEvents := 0, revenueLossPerMwh := 0 }
     (by decide) (by decide) (by decide)⟩

/-! ## C8: 8760-to-288 compression of day-invariant series -/

/-- C8 (amended): if every day `d` of month `m` carries the same value `v`
at hour `h`, the compressed profile at index `m*24 + h` is `roundQ 5 v` —
the day-average rounded to 5 decimal places (exactly `v` only when `v` is a
multiple of 1e-5), not `v` itself. -/
theorem c8_compression_day_invariant (f : ℕ → ℚ) (v : ℚ) (m h : ℕ)
    (hm : m < 12) (hh : h < 24)
    (hconst : ∀ d < daysInMonth.getD m 0, f (monthStartHour m + d * 24 + h) = v) :
    compress288 f (m * 24 + h) = roundQ 5 v := by
  unfold compress288
  have hdiv : (m * 24 + h) / 24 = m := by omega
  have hmod : (m * 24 + h) % 24 = h := by omega
  simp only [hdiv, hmod]
  have hnd : 0 < daysInMonth.getD m 0 := by
    interval_cases m <;> decide
  have hsum : (∑ d ∈ Finset.range (daysInMonth.getD m 0), f (monthStartHour m + d * 24 + h)) =
      (daysInMonth.getD m 0 : ℚ) * v := by
    rw [Finset.sum_congr rfl (fun d hd => hconst d (Finset.mem_range.mp hd))]
    simp [Finset.sum_const, nsmul_eq_mul]
  rw [hsum]
  congr 1
  have hne : (daysInMonth.getD m 0 : ℚ) ≠ 0 := by
    exact_mod_cast Nat.pos_iff_ne_zero.mp hnd
  exact mul_div_cancel_left₀ v hne

/-- C8 witness: a January series constant at 0.5 compresses to
`roundQ 5 0.5 = 0.5` at index 0. -/
theorem c8_compression_day_invariant_witness :
    compress288 (fun _ => 1 / 2) (0 * 24 + 0) = roundQ 5 (1 / 2) :=
  c8_compression_day_invariant (fun _ => 1 / 2) (1 / 2) 0 0 (by decide) (by decide)
    (fun _ _ => rfl)

/-- C8 counterexample to the claim as stated: the constant series `1e-6` is
day-invariant, but the compressed value at index 0 is `0`, not `1e-6` —
`round(·, 5)` destroys exactness. -/
theorem c8_counterexample :
    compress288 (fun _ => 1 / 10 ^ 6) 0 = 0 ∧ (1 / 10 ^ 6 : ℚ) ≠ 0 :=
  ⟨by decide, by decide⟩

/-! ## C9: capacity-factor hint rescaling -/

/-- C9 (amended): when a positive CF hint is supplied and the 288-profile
mean is positive, each sample is multiplied not by `hint / mean` but by
`clamp(normalize(hint)) / mean`, where `normalize` divides by 100 when the
hint exceeds 1 and `clamp` restricts to `[0.05, 0.45]`; the product is
rounded to 5 decimals and then clamped to `[0, 1]`. -/
theorem c9_cf_hint_rescaling (hv : ℚ) (profile : List ℚ) (i : ℕ)
    (hpos : 0 < hv) (hlen : 0 < profile.length)
    (havg : 0 < profile.sum / (profile.length : ℚ)) (hi : i < profile.length) :
    (applyCfHint (some hv) profile).length = profile.length ∧
    (applyCfHint (some hv) profile).getD i 0 =
      max 0 (min 1 (roundQ 5 (profile.getD i 0 *
        (max (5 / 100) (min (45 / 100) (if 1 < hv then hv / 100 else hv)) /
          (profile.sum / (profile.length : ℚ)))))) := by
  have hmax : (max profile.length 1 : ℕ) = profile.length := max_eq_left hlen
  have happ : applyCfHint (some hv) profile =
      profile.map (fun v => max 0 (min 1 (roundQ 5 (v *
        (max (5 / 100) (min (45 / 100) (if 1 < hv then hv / 100 else hv)) /
          (profile.sum / (profile.length : ℚ))))))) := by
    simp only [applyCfHint]
    rw [if_pos hpos, hmax, if_pos havg]
  refine ⟨by rw [happ, List.length_map], ?_⟩
  rw [happ]
  rw [List.getD_eq_getElem?_getD, List.getD_eq_getElem?_getD, List.getElem?_map]
  have hget : profile[i]? = some profile[i] := List.getElem?_eq_getElem hi
  rw [hget]
  rfl

/-- C9 witness: hint `0.25` on the profile `[1/2, 1/4]` (mean `3/8`):
sample 0 becomes `clamp01(round5(1/2 · (0.25/(3/8)))) = 1/3` rounded. -/
theorem c9_cf_hint_rescaling_witness :
    (applyCfHint (some (1 / 4)) [1 / 2, 1 / 4]).length = ([1 / 2, 1 / 4] : List ℚ).length ∧
    (applyCfHint (some (1 / 4)) [1 / 2, 1 / 4]).getD 0 0 =
      max 0 (min 1 (roundQ 5 (([1 / 2, 1 / 4] : List ℚ).getD 0 0 *
        (max (5 / 100) (min (45 / 100) (if 1 < (1 / 4 : ℚ) then (1 / 4 : ℚ) / 100 else 1 / 4)) /
          (([1 / 2, 1 / 4] : List ℚ).sum / (([1 / 2, 1 / 4] : List ℚ).length : ℚ)))))) :=
  c9_cf_hint_rescaling (1 / 4) [1 / 2, 1 / 4] 0 (by norm_num) (by decide) (by decide)
    (by decide)

/-- C9 counterexample to the claim as stated: hint `0.9` on a flat `0.5`
profile.  The claim's formula (`sample · hint/mean`, clamped to `[0,1]`)
gives `0.9`; the code clamps the hint to `0.45` first and yields `0.45`. -/
theorem c9_counterexample :
    (applyCfHint (some (9 / 10)) c9Profile).getD 0 0 = 45 / 100 ∧
    max 0 (min 1 ((1 / 2) * ((9 / 10) / (c9Profile.sum / (c9Profile.length : ℚ))))) = 9 / 10 ∧
    (45 / 100 : ℚ) ≠ 9 / 10 :=
  ⟨by decide, by decide, by decide⟩

/-! ## C4: the IRR bisection contract -/

/-- C4 (amended): (a) whenever `NPV(low)` and `NPV(high)` have equal sign,
`_irr_bisection` returns null; (b) whenever the loop returns through its
in-loop tolerance exit, the returned rate `r` satisfies
`|NPV(r)| ≤ 1e-7 ≤ 1e-4`.  (On 200-iteration exhaustion the bracket
midpoint is returned with no bound on `|NPV|` — see the counterexample.) -/
theorem c4_irr_bisection_contract :
    (∀ (cfs : List ℚ) (low high : ℚ) (iters : ℕ),
      signQ (npvAt cfs low) = signQ (npvAt cfs high) →
      irrBisection cfs low high iters = none) ∧
    (∀ (cfs : List ℚ) (n : ℕ) (low high lowNpv r : ℚ),
      bisectLoop cfs n low high lowNpv = BisectExit.tol r →
      |npvAt cfs r| ≤ 1 / 10 ^ 7) := by
  constructor
  · intro cfs low high iters h
    simp only [irrBisection]
    rw [if_pos h]
  · intro cfs n
    induction n with
    | zero =>
      intro low high lowNpv r h
      simp [bisectLoop] at h
    | succ k ih =>
      intro low high lowNpv r h
      simp only [bisectLoop] at h
      by_cases htol : |npvAt cfs ((low + high) / 2)| ≤ 1 / 10 ^ 7
      · rw [if_pos htol] at h
        injection h with h
        rw [← h]
        exact htol
      · rw [if_neg htol] at h
        by_cases hsgn : signQ (npvAt cfs ((low + high) / 2)) = signQ lowNpv
        · rw [if_pos hsgn] at h
          exact ih _ _ _ _ h
        · rw [if_neg hsgn] at h
          exact ih _ _ _ _ h

/-- C4 witness: the all-positive one-element series `[1]` has equal NPV
signs at both bracket ends, so the bisection returns null. -/
theorem c4_irr_bisection_contract_witness :
    irrBisection [1] (-99 / 100) 3 200 = none :=
  c4_irr_bisection_contract.1 [1] (-99 / 100) 3 200 (by decide)

/-- C4 counterexample to the claim as stated: on `[1e60, -1e60]` the
bisection exhausts its 200 iterations and returns the bracket midpoint,
whose NPV magnitude (≈ 1.22) far exceeds the claimed 1e-4 bound. -/
theorem c4_counterexample :
    irrBisectionDefault c4Cashflows ≠ none ∧
    1 / 10 ^ 4 < |npvAt c4Cashflows ((irrBisectionDefault c4Cashflows).getD 0)| :=
  ⟨by decide, by decide⟩

/-! ## C3: null IRR reporting -/

/-- C3 (amended): for a validated model on the uncalibrated path (dynamic
lease pricing disabled) whose cash-flow series has no sign change between
NPV(-0.99) and NPV(3.0): `_irr_bisection` returns null, the calibration
check maps that null to the `-0.99` sentinel, but the summary KPI
`project_irr_unlevered_pct` reports the *number* `0.0` (the code maps the
null to `0.0`), not null. -/
theorem c3_irr_null_reporting (fuel : ℕ) (m : Model)
    (_hv : validateOk m = true)
    (hdyn : m.revenue.dynamicLeasePricingEnabled = false)
    (hsign : signQ (npvAt (baseSeries m) (-99 / 100)) = signQ (npvAt (baseSeries m) 3)) :
    irrBisectionDefault (baseSeries m) = none ∧
    irrForCheck (irrBisectionDefault (baseSeries m)) = -99 / 100 ∧
    (run fuel m).summaryKpis.projectIrrUnleveredPct = some 0 := by
  have hnone : irrBisectionDefault (baseSeries m) = none := by
    simp only [irrBisectionDefault, irrBisection]
    rw [if_pos hsign]
  refine ⟨hnone, by rw [hnone]; rfl, ?_⟩
  have hcal : afterCalibration fuel m =
      { rows := (buildCashflows m (baseLeaseRate m)).rows
        series := baseSeries m
        payback := (buildCashflows m (baseLeaseRate m)).payback
        irr := irrBisectionDefault (baseSeries m)
        positiveYears := (buildCashflows m (baseLeaseRate m)).positiveYears
        appliedRate := baseLeaseRate m
        applied := false } := by
    unfold afterCalibration
    rw [hdyn]
    simp [baseSeries]
  unfold run
  rw [hcal]
  simp only [hnone, roundQ_zero]

/-- C3 witness: the amended statement at the zero-lease-rate,
calibration-disabled model. -/
theorem c3_irr_null_reporting_witness :
    irrBisectionDefault (baseSeries c3Model) = none ∧
    irrForCheck (irrBisectionDefault (baseSeries c3Model)) = -99 / 100 ∧
    (run 0 c3Model).summaryKpis.projectIrrUnleveredPct = some 0 :=
  c3_irr_null_reporting 0 c3Model (by decide) (by decide) (by decide)

/-- C3 counterexample to the claim as stated: `c3Model` validates, its
series has no sign change in the bracket, yet the reported summary KPI is a
number (0.0), not null. -/
theorem c3_counterexample :
    validateOk c3Model = true ∧
    signQ (npvAt (baseSeries c3Model) (-99 / 100)) = signQ (npvAt (baseSeries c3Model) 3) ∧
    (run 0 c3Model).summaryKpis.projectIrrUnleveredPct ≠ none :=
  ⟨by decide, by decide, by decide⟩

/-! ## C5: invariants of the reported MILP response -/

/-- C5 (amended): take any assignment satisfying the LP constraint system
(what a solver-returned solution is), a positive load, and nonnegative cost
parameters.  Then the assembled response satisfies
`solar_capacity_mw ≥ 0`, `battery_power_mw ≥ 0`,
`battery_power_mw ≤ solar_capacity_mw` and `net_lcoe ≥ 0` exactly, while
the remaining two bounds hold only up to the response's decimal rounding:
`battery_energy_mwh ≤ 6·battery_power_mw + 0.0385` and
`gas_backup_actual ≤ max_gas_backup_pct + 5e-5 + 1/(1752000·load)`. -/
theorem c5_milp_response_invariants
    (L pct : ℚ) (profile : ℕ → ℚ) (gasCap sqrtRte invEff ghr : ℚ)
    (conflict : Finset ℕ) (maxSolar : Option ℚ) (a : Asg) (cp : CostParams)
    (r : OptResponse)
    (hf : FeasibleAsg L pct profile gasCap sqrtRte invEff conflict maxSolar a)
    (hL : 0 < L)
    (h1 : 0 ≤ cp.solarCapexPerKw) (h2 : 0 ≤ cp.solarOmPerKwYear)
    (h3 : 0 ≤ cp.batteryEnergyCapexPerKwh) (h4 : 0 ≤ cp.batteryPowerCapexPerKw)
    (h5 : 0 ≤ cp.batteryOmPerKwYear) (h6 : 0 ≤ cp.wacc)
    (h7 : 0 < cp.solarLifeYears) (h8 : 0 < cp.batteryLifeYears)
    (h9 : 0 ≤ cp.gasPricePerMmbtu) (h10 : 0 ≤ ghr)
    (hr : r = assembleResponse L cp ghr (extractResults a)) :
    0 ≤ r.solarCapacityMw ∧
    0 ≤ r.batteryPowerMw ∧
    r.batteryPowerMw ≤ r.solarCapacityMw ∧
    r.batteryEnergyMwh ≤ 6 * r.batteryPowerMw + 77 / 2000 ∧
    0 ≤ r.netLcoe ∧
    r.gasBackupActual ≤ pct + 1 / 20000 + 1 / (1752000 * L) := by
  obtain ⟨hhrs, hsc, hbp, hbe, hbe6, hbps, hgsum, -⟩ := hf
  subst hr
  have hL8760 : (0 : ℚ) < L * 8760 := by positivity
  have hS : 0 ≤ ∑ t ∈ Finset.range 288, a.gasGen t :=
    Finset.sum_nonneg fun t ht => ((hhrs t (Finset.mem_range.mp ht)).2.2.2.1)
  have hscale : (0 : ℚ) < scaleFactor := by norm_num [scaleFactor]
  have hG : 0 ≤ roundQ 2 ((∑ t ∈ Finset.range 288, a.gasGen t) * scaleFactor) :=
    roundQ_nonneg 2 (mul_nonneg hS (le_of_lt hscale))
  have hsolar' : 0 ≤ roundQ 3 a.solarCap := roundQ_nonneg 3 hsc
  have hpower' : 0 ≤ roundQ 3 a.battPower := roundQ_nonneg 3 hbp
  have henergy' : 0 ≤ roundQ 3 a.battEnergy := roundQ_nonneg 3 hbe
  simp only [assembleResponse, extractResults, if_pos hL8760]
  refine ⟨roundQ_nonneg 2 hsolar', roundQ_nonneg 2 hpower',
    roundQ_mono 2 (roundQ_mono 3 hbps), ?_, ?_, ?_⟩
  · -- battery energy vs 6× battery power, up to rounding slack
    have e1 := roundQ_le_add 3 a.battEnergy
    have e2 := roundQ_le_add 2 (roundQ 3 a.battEnergy)
    have p1 := roundQ_ge_sub 3 a.battPower
    have p2 := roundQ_ge_sub 2 (roundQ 3 a.battPower)
    norm_num at e1 e2 p1 p2
    linarith
  · -- net LCOE nonnegative
    apply roundQ_nonneg 2
    apply div_nonneg _ (le_of_lt hL8760)
    have hcrf1 := computeCrf_nonneg h6 h7
    have hcrf2 := computeCrf_nonneg h6 h8
    have hgvc : 0 ≤ gasVariableCost ghr cp.gasPricePerMmbtu := by
      unfold gasVariableCost
      positivity
    simp only [computeAnnualCostsTotal]
    have m1 : 0 ≤ cp.solarCapexPerKw * roundQ 3 a.solarCap * 1000 * computeCrf cp.wacc cp.solarLifeYears :=
      mul_nonneg (mul_nonneg (mul_nonneg h1 hsolar') (by norm_num)) hcrf1
    have m2 : 0 ≤ cp.solarOmPerKwYear * roundQ 3 a.solarCap * 1000 :=
      mul_nonneg (mul_nonneg h2 hsolar') (by norm_num)
    have m3 : 0 ≤ cp.batteryEnergyCapexPerKwh * roundQ 3 a.battEnergy * 1000 * computeCrf cp.wacc cp.batteryLifeYears :=
      mul_nonneg (mul_nonneg (mul_nonneg h3 henergy') (by norm_num)) hcrf2
    have m4 : 0 ≤ cp.batteryPowerCapexPerKw * roundQ 3 a.battPower * 1000 * computeCrf cp.wacc cp.batteryLifeYears :=
      mul_nonneg (mul_nonneg (mul_nonneg h4 hpower') (by norm_num)) hcrf2
    have m5 : 0 ≤ cp.batteryOmPerKwYear * roundQ 3 a.battPower * 1000 :=
      mul_nonneg (mul_nonneg h5 hpower') (by norm_num)
    have m6 : 0 ≤ roundQ 2 ((∑ t ∈ Finset.range 288, a.gasGen t) * scaleFactor) *
        gasVariableCost ghr cp.gasPricePerMmbtu := mul_nonneg hG hgvc
    linarith
  · -- gas backup fraction bound
    have hSscaled : (∑ t ∈ Finset.range 288, a.gasGen t) * scaleFactor ≤ pct * (L * 8760) := by
      have := mul_le_mul_of_nonneg_right hgsum (le_of_lt hscale)
      calc (∑ t ∈ Finset.range 288, a.gasGen t) * scaleFactor
          ≤ pct * L * 288 * scaleFactor := this
        _ = pct * (L * 8760) := by norm_num [scaleFactor]; ring
    have hGle : roundQ 2 ((∑ t ∈ Finset.range 288, a.gasGen t) * scaleFactor) ≤
        pct * (L * 8760) + 1 / 200 := by
      have := roundQ_le_add 2 ((∑ t ∈ Finset.range 288, a.gasGen t) * scaleFactor)
      norm_num at this
      linarith
    have hratio : roundQ 2 ((∑ t ∈ Finset.range 288, a.gasGen t) * scaleFactor) / (L * 8760) ≤
        pct + 1 / (1752000 * L) := by
      have hstep := (div_le_div_iff_of_pos_right hL8760).mpr hGle
      calc roundQ 2 ((∑ t ∈ Finset.range 288, a.gasGen t) * scaleFactor) / (L * 8760)
          ≤ (pct * (L * 8760) + 1 / 200) / (L * 8760) := hstep
        _ = pct + 1 / (1752000 * L) := by
            field_simp
            ring
    have hr4 := roundQ_le_add 4 (roundQ 2 ((∑ t ∈ Finset.range 288, a.gasGen t) * scaleFactor) / (L * 8760))
    norm_num at hr4
    linarith

/-- C5 witness: the invariants at a concrete feasible point — 1-MW constant
load served entirely by gas, unit profile, zero-cost parameters. -/
theorem c5_milp_response_invariants_witness :
    0 ≤ (assembleResponse 1 c5CostParams 0 (extractResults c5WitnessAsg)).solarCapacityMw ∧
    0 ≤ (assembleResponse 1 c5CostParams 0 (extractResults c5WitnessAsg)).batteryPowerMw ∧
    (assembleResponse 1 c5CostParams 0 (extractResults c5WitnessAsg)).batteryPowerMw ≤
      (assembleResponse 1 c5CostParams 0 (extractResults c5WitnessAsg)).solarCapacityMw ∧
    (assembleResponse 1 c5CostParams 0 (extractResults c5WitnessAsg)).batteryEnergyMwh ≤
      6 * (assembleResponse 1 c5CostParams 0 (extractResults c5WitnessAsg)).batteryPowerMw +
        77 / 2000 ∧
    0 ≤ (assembleResponse 1 c5CostParams 0 (extractResults c5WitnessAsg)).netLcoe ∧
    (assembleResponse 1 c5CostParams 0 (extractResults c5WitnessAsg)).gasBackupActual ≤
      1 + 1 / 20000 + 1 / (1752000 * 1) :=
  c5_milp_response_invariants 1 1 (fun _ => 1) 1 1 1 0 ∅ none c5WitnessAsg c5CostParams
    (assembleResponse 1 c5CostParams 0 (extractResults c5WitnessAsg))
    (by decide) (by norm_num) (by decide) (by decide) (by decide) (by decide)
    (by decide) (by decide) (by decide) (by decide) (by decide) (by decide) rfl

/-- C5 counterexample to the claim as stated: a feasible LP point with a
0.001-MW / 0.006-MWh battery.  After the response's two-stage rounding the
reported battery energy is 0.01 MWh while the reported battery power is
0.00 MW, violating `battery_energy_mwh ≤ 6 · battery_power_mw`. -/
theorem c5_counterexample :
    FeasibleAsg 1 1 (fun _ => 0) 1 1 1 ∅ none c5Asg ∧
    6 * (assembleResponse 1 c5CostParams 0 (extractResults c5Asg)).batteryPowerMw <
      (assembleResponse 1 c5CostParams 0 (extractResults c5Asg)).batteryEnergyMwh :=
  ⟨by decide, by decide⟩

end PowerCouple
